import Mathlib

/-!
Verification of the QA_MCP repository's issue-QA analyzer, report formatter,
URL parsers and database tool handlers, as a shallow embedding in Lean.

JavaScript strings are modelled as `String` (operated on through `String.data`,
a `List Char`); the JavaScript regular expressions of the source are embedded
as terms of a small regex AST `RE` executed by a fuel-indexed backtracking
matcher `mrun` that follows ECMAScript semantics for the constructs the
source uses: ordered alternation, greedy and lazy repetition (iterations must
consume input, as in the ECMAScript RepeatMatcher), capture groups, the `^`
and `$` anchors, and the `g`/`i`/`s` flags.
-/

namespace QAMCP

/-- Left-biased choice on `Option`, used by the matcher for ordered
regex alternation. -/
def obe (x : Option α) (y : Unit → Option α) : Option α :=
  match x with
  | some v => some v
  | none => y ()

/-- Capture-group state: group index to (start, end) character offsets. -/
def Caps : Type := Nat → Option (Nat × Nat)

/-- No group has captured yet. -/
def emptyCaps : Caps := fun _ => none

/-- Record group `n` as having captured the span `[b, e)`. -/
def setCap (c : Caps) (n b e : Nat) : Caps :=
  fun g => if g = n then some (b, e) else c g

/-- Regex AST covering the constructs used by the repository's patterns. -/
inductive RE where
  /-- empty pattern -/
  | eps : RE
  /-- single character matching the predicate (character classes, literals) -/
  | cpred : (Char → Bool) → RE
  /-- concatenation -/
  | seq : RE → RE → RE
  /-- ordered alternation (left branch preferred, as in ECMAScript) -/
  | alt : RE → RE → RE
  /-- greedy Kleene star -/
  | starG : RE → RE
  /-- lazy Kleene star -/
  | starL : RE → RE
  /-- numbered capture group -/
  | group : Nat → RE → RE
  /-- the `^` anchor (no `m` flag: start of input) -/
  | bos : RE
  /-- the `$` anchor (no `m` flag: end of input) -/
  | eos : RE

/-- Structural size of a regex, used to compute an adequate fuel bound. -/
def reSize : RE → Nat
  | .eps => 1
  | .cpred _ => 1
  | .seq a b => 1 + reSize a + reSize b
  | .alt a b => 1 + reSize a + reSize b
  | .starG a => 1 + reSize a
  | .starL a => 1 + reSize a
  | .group _ a => 1 + reSize a
  | .bos => 1
  | .eos => 1

/-- Backtracking matcher in continuation-passing style. `mrun f re s p c k`
tries to match `re` in `s` starting at offset `p` with capture state `c`,
calling `k` on every candidate end position in the priority order prescribed
by ECMAScript (alternation left-first, greedy stars longest-first, lazy stars
shortest-first, star iterations required to consume input). The fuel `f`
bounds the recursion depth; with adequate fuel the result equals the
ECMAScript match. -/
def mrun : Nat → RE → List Char → Nat → Caps →
    (Nat → Caps → Option (Nat × Caps)) → Option (Nat × Caps)
  | 0, _, _, _, _, _ => none
  | f + 1, re, s, p, c, k =>
    match re with
    | .eps => k p c
    | .cpred q =>
      match s.get? p with
      | some ch => if q ch then k (p + 1) c else none
      | none => none
    | .seq a b => mrun f a s p c (fun p2 c2 => mrun f b s p2 c2 k)
    | .alt a b => obe (mrun f a s p c k) (fun _ => mrun f b s p c k)
    | .group n a => mrun f a s p c (fun p2 c2 => k p2 (setCap c2 n p p2))
    | .bos => if p = 0 then k p c else none
    | .eos => if p = s.length then k p c else none
    | .starG a =>
      obe (mrun f a s p c (fun p2 c2 =>
          if p < p2 then mrun f (.starG a) s p2 c2 k else none))
        (fun _ => k p c)
    | .starL a =>
      obe (k p c)
        (fun _ => mrun f a s p c (fun p2 c2 =>
          if p < p2 then mrun f (.starL a) s p2 c2 k else none))

/-- Fuel sufficient for matching `re` against (a suffix of) `s`. -/
def mfuel (re : RE) (s : List Char) : Nat :=
  (s.length + 2) * (reSize re + 2)

/-- Try to match `re` at exactly offset `p`, returning the end offset and
captures of the preferred match. -/
def matchAt (re : RE) (s : List Char) (p : Nat) : Option (Nat × Caps) :=
  mrun (mfuel re s) re s p emptyCaps (fun e c => some (e, c))

/-- One regex match occurrence: start offset, end offset, captures. -/
structure RMatch where
  mstart : Nat
  mend : Nat
  caps : Caps

/-- Scan offsets `p, p+1, …` (at most `tries` of them) for the leftmost
match, as ECMAScript regex search does. -/
def searchAux (re : RE) (s : List Char) : Nat → Nat → Option RMatch
  | _, 0 => none
  | p, tries + 1 =>
    match matchAt re s p with
    | some (e, c) => some ⟨p, e, c⟩
    | none => searchAux re s (p + 1) tries

/-- Leftmost match of `re` in `s` at offset ≥ `start`
(the search underlying `String.prototype.match` and `RegExp.prototype.exec`). -/
def searchFrom (re : RE) (s : List Char) (start : Nat) : Option RMatch :=
  searchAux re s start (s.length + 1 - start)

/-- Loop of repeated `exec` calls on a `g`-flagged regex: after each match,
`lastIndex` advances to the match end. (The source's patterns cannot match
the empty string; if one did, the loop stops rather than diverge.) -/
def execAllAux (re : RE) (s : List Char) : Nat → Nat → List RMatch
  | _, 0 => []
  | li, steps + 1 =>
    match searchFrom re s li with
    | none => []
    | some m => m :: (if li < m.mend then execAllAux re s m.mend steps else [])

/-- All matches produced by the source's `while ((match = pattern.exec(d)))`
loops over a global regex. -/
def execAll (re : RE) (s : List Char) : List RMatch :=
  execAllAux re s 0 (s.length + 1)

/-- The text captured by group `n` of a match (`match[n]` in JavaScript);
empty when the group did not participate. -/
def capStr (s : List Char) (m : RMatch) (n : Nat) : String :=
  match m.caps n with
  | some (b, e) => String.mk ((s.drop b).take (e - b))
  | none => ""

/-- `RegExp.prototype.test`: does the regex match anywhere in the string? -/
def reTest (re : RE) (s : String) : Bool :=
  (searchFrom re s.data 0).isSome

/-- literal character (case-sensitive) -/
def lch (c : Char) : RE := .cpred (fun x => x == c)

/-- literal character under the `i` flag (ASCII case-folding, the effect of
ECMAScript canonicalization on the source's patterns) -/
def ilch (c : Char) : RE := .cpred (fun x => x.toLower == c.toLower)

/-- case-sensitive string literal -/
def lit (w : String) : RE :=
  w.data.foldr (fun ch r => .seq (lch ch) r) .eps

/-- string literal under the `i` flag -/
def ilit (w : String) : RE :=
  w.data.foldr (fun ch r => .seq (ilch ch) r) .eps

/-- ordered alternation of a list of branches -/
def alts : List RE → RE
  | [] => .eps
  | [r] => r
  | r :: rs => .alt r (alts rs)

/-- greedy `?` -/
def opt (r : RE) : RE := .alt r .eps

/-- greedy `+` -/
def plusG (r : RE) : RE := .seq r (.starG r)

/-- lazy `+?` -/
def plusL (r : RE) : RE := .seq r (.starL r)

/-- ECMAScript whitespace (`\s`): WhiteSpace and LineTerminator code points. -/
def isJsWs (c : Char) : Bool :=
  c == ' ' || c == '\t' || c == '\n' || c == '\r' ||
  c == '\x0b' || c == '\x0c' || c == '\u00a0' || c == '\u1680' ||
  ('\u2000' ≤ c && c ≤ '\u200a') || c == '\u2028' || c == '\u2029' ||
  c == '\u202f' || c == '\u205f' || c == '\u3000' || c == '\ufeff'

/-- `.` under the `s` (dotAll) flag -/
def dotAll : RE := .cpred (fun _ => true)

/-- `.` without the `s` flag: anything but a line terminator -/
def dotNL : RE :=
  .cpred (fun c => !(c == '\n' || c == '\r' || c == '\u2028' || c == '\u2029'))

/-- the class `[:\-\s]` -/
def colonDashWs : RE := .cpred (fun c => c == ':' || c == '-' || isJsWs c)

/-- the class `[A-Z]` under the `i` flag (matches both cases) -/
def azUC : RE :=
  .cpred (fun c => ('A' ≤ c && c ≤ 'Z') || ('a' ≤ c && c ≤ 'z'))

/-- the class `\d` -/
def digitC : RE := .cpred (fun c => '0' ≤ c && c ≤ '9')

/-- the class `[^\/]` -/
def notSlash : RE := .cpred (fun c => !(c == '/'))

/-- `String.prototype.toLowerCase` (ASCII case mapping, which covers every
input the verified claims exercise). -/
def jsLower (s : String) : String := String.mk (s.data.map Char.toLower)

/-- `String.prototype.trim` with the ECMAScript whitespace set. -/
def jsTrim (s : String) : String :=
  String.mk (((s.data.dropWhile isJsWs).reverse.dropWhile isJsWs).reverse)

/-- Is `pre` an initial segment of `l`? -/
def headMatches : List Char → List Char → Bool
  | [], _ => true
  | _ :: _, [] => false
  | a :: as, b :: bs => a == b && headMatches as bs

/-- `String.prototype.includes`: substring containment. -/
def strIncludes (s sub : String) : Bool :=
  (List.range (s.data.length + 1)).any (fun i => headMatches sub.data (s.data.drop i))

/-- `Array.prototype.join` with a separator. -/
def joinSep (sep : String) : List String → String
  | [] => ""
  | [x] => x
  | x :: xs => x ++ sep ++ joinSep sep xs

/-- `parseInt(s, 10)` on the all-digit strings produced by a `\d+` capture. -/
def parseIntDec (s : String) : Nat :=
  s.data.foldl (fun acc c => acc * 10 + (c.toNat - 48)) 0

/-- `[...new Set(l)]`: remove duplicates keeping the first occurrence, in
insertion order; `seen` accumulates the elements already emitted. -/
def dedupFirstAux [DecidableEq α] (seen : List α) : List α → List α
  | [] => []
  | x :: xs =>
    if x ∈ seen then dedupFirstAux seen xs
    else x :: dedupFirstAux (x :: seen) xs

/-- `[...new Set(l)]` as used by the analyzer. -/
def dedupFirst [DecidableEq α] (l : List α) : List α := dedupFirstAux [] l

theorem mem_dedupFirstAux [DecidableEq α] (l : List α) :
    ∀ (seen : List α) (x : α), x ∈ dedupFirstAux seen l ↔ x ∈ l ∧ x ∉ seen := by
  induction l with
  | nil => intro seen x; simp [dedupFirstAux]
  | cons y ys ih =>
    intro seen x
    by_cases hy : y ∈ seen
    · rw [dedupFirstAux, if_pos hy, ih]
      constructor
      · rintro ⟨hx, hns⟩; exact ⟨List.mem_cons_of_mem _ hx, hns⟩
      · rintro ⟨hx, hns⟩
        rcases List.mem_cons.mp hx with rfl | hx
        · exact absurd hy hns
        · exact ⟨hx, hns⟩
    · rw [dedupFirstAux, if_neg hy]
      constructor
      · intro hx
        rcases List.mem_cons.mp hx with rfl | hx
        · exact ⟨List.mem_cons_self _ _, hy⟩
        · have := (ih _ _).mp hx
          refine ⟨List.mem_cons_of_mem _ this.1, fun hs => this.2 ?_⟩
          exact List.mem_cons_of_mem _ hs
      · rintro ⟨hx, hns⟩
        rcases List.mem_cons.mp hx with rfl | hx
        · exact List.mem_cons_self _ _
        · by_cases hxy : x = y
          · subst hxy; exact List.mem_cons_self _ _
          · refine List.mem_cons_of_mem _ ((ih _ _).mpr ⟨hx, ?_⟩)
            intro hs
            rcases List.mem_cons.mp hs with h | h
            · exact hxy h
            · exact hns h

theorem mem_dedupFirst [DecidableEq α] (l : List α) (x : α) :
    x ∈ dedupFirst l ↔ x ∈ l := by
  rw [dedupFirst, mem_dedupFirstAux]
  simp

theorem nodup_dedupFirstAux [DecidableEq α] (l : List α) :
    ∀ seen : List α, (dedupFirstAux seen l).Nodup := by
  induction l with
  | nil => intro seen; simp [dedupFirstAux]
  | cons y ys ih =>
    intro seen
    by_cases hy : y ∈ seen
    · rw [dedupFirstAux, if_pos hy]; exact ih seen
    · rw [dedupFirstAux, if_neg hy]
      refine List.nodup_cons.mpr ⟨fun hmem => ?_, ih _⟩
      have := (mem_dedupFirstAux ys _ y).mp hmem
      exact this.2 (List.mem_cons_self _ _)

theorem nodup_dedupFirst [DecidableEq α] (l : List α) : (dedupFirst l).Nodup :=
  nodup_dedupFirstAux l []

theorem sublist_dedupFirstAux [DecidableEq α] (l : List α) :
    ∀ seen : List α, (dedupFirstAux seen l).Sublist l := by
  induction l with
  | nil => intro seen; simp [dedupFirstAux]
  | cons y ys ih =>
    intro seen
    by_cases hy : y ∈ seen
    · rw [dedupFirstAux, if_pos hy]
      exact (ih seen).trans (List.sublist_cons_self _ _)
    · rw [dedupFirstAux, if_neg hy]
      exact (ih _).cons₂ y

theorem sublist_dedupFirst [DecidableEq α] (l : List α) :
    (dedupFirst l).Sublist l :=
  sublist_dedupFirstAux l []

/-- A flatMap over a list whose function is everywhere empty is empty. -/
theorem flatMap_eq_nil_of_forall {α β : Type} (l : List α) (f : α → List β)
    (h : ∀ a ∈ l, f a = []) : l.flatMap f = [] := by
  induction l with
  | nil => rfl
  | cons x xs ih =>
    rw [List.flatMap_cons, h x (List.mem_cons_self _ _),
      ih (fun a ha => h a (List.mem_cons_of_mem _ ha))]
    rfl

/-! ## Data model (src/src/helpers/qa.ts) -/

/-- The provider-agnostic issue record (`interface IssueData`). -/
structure IssueData where
  title : String
  description : String
  labels : List String
  assignees : List String
  author : String
  state : String
  created_at : String
  updated_at : String
  web_url : String
  project_name : String
  iid : Nat

/-- The analyzer's result record (`interface QAAnalysis`). -/
structure QAAnalysis where
  requirements : List String
  acceptanceCriteria : List String
  testingSuggestions : List String
  riskAreas : List String
  testTypes : List String
deriving DecidableEq

/-! ## Requirement extraction (`extractRequirements`) -/

/-- `/(?:requisito|requerimiento|requirement)s?[:\-\s]*(.*?)(?:\n\n|\n[A-Z]|$)/gis` -/
def reqP1 : RE :=
  .seq (alts [ilit "requisito", ilit "requerimiento", ilit "requirement"])
    (.seq (opt (ilch 's'))
      (.seq (.starG colonDashWs)
        (.seq (.group 1 (.starL dotAll))
          (alts [lit "\n\n", .seq (lch '\n') azUC, .eos]))))

/-- `/(?:necesita|debe|should|must)[:\-\s]*(.*?)(?:\n|\.|$)/gis` -/
def reqP2 : RE :=
  .seq (alts [ilit "necesita", ilit "debe", ilit "should", ilit "must"])
    (.seq (.starG colonDashWs)
      (.seq (.group 1 (.starL dotAll))
        (alts [lch '\n', lch '.', .eos])))

/-- `/(?:como|as a).*?(?:quiero|want|need).*?(?:para|so that)(.*?)(?:\n|\.|$)/gis` -/
def reqP3 : RE :=
  .seq (alts [ilit "como", ilit "as a"])
    (.seq (.starL dotAll)
      (.seq (alts [ilit "quiero", ilit "want", ilit "need"])
        (.seq (.starL dotAll)
          (.seq (alts [ilit "para", ilit "so that"])
            (.seq (.group 1 (.starL dotAll))
              (alts [lch '\n', lch '.', .eos]))))))

/-- The `reqPatterns` array of `extractRequirements`. -/
def reqPatterns : List RE := [reqP1, reqP2, reqP3]

/-- The scan loop of `extractRequirements`: for each pattern in order, every
match whose trimmed group-1 capture exceeds 10 characters contributes that
trimmed capture. -/
def reqMatches (description : String) : List String :=
  let s := description.data
  (reqPatterns.map (fun p =>
    (execAll p s).filterMap (fun m =>
      let req := jsTrim (capStr s m 1)
      if req.length > 10 then some req else none))).flatten

/-- `extractRequirements`: the scan results, or the synthetic
`"Implementar: {title}"` entry when the scan found nothing. -/
def extractRequirements (issueData : IssueData) : List String :=
  let requirements := reqMatches issueData.description
  if requirements.isEmpty then ["Implementar: " ++ issueData.title]
  else requirements

/-! ## Acceptance-criteria extraction (`extractAcceptanceCriteria`) -/

/-- `/(?:criterios? de aceptaci[oó]n|acceptance criteria)[:\-\s]*((?:.*\n)*?)(?:\n[A-Z]|\n\n|$)/gis` -/
def critP1 : RE :=
  .seq (alts [.seq (ilit "criterio")
                (.seq (opt (ilch 's'))
                  (.seq (ilit " de aceptaci")
                    (.seq (.cpred (fun c => c.toLower == 'o' || c.toLower == 'ó'))
                      (ilch 'n')))),
              ilit "acceptance criteria"])
    (.seq (.starG colonDashWs)
      (.seq (.group 1 (.starL (.seq (.starG dotAll) (lch '\n'))))
        (alts [.seq (lch '\n') azUC, lit "\n\n", .eos])))

/-- `/(?:dado|given).*?(?:cuando|when).*?(?:entonces|then)(.*?)(?:\n|\.|$)/gis` -/
def critP2 : RE :=
  .seq (alts [ilit "dado", ilit "given"])
    (.seq (.starL dotAll)
      (.seq (alts [ilit "cuando", ilit "when"])
        (.seq (.starL dotAll)
          (.seq (alts [ilit "entonces", ilit "then"])
            (.seq (.group 1 (.starL dotAll))
              (alts [lch '\n', lch '.', .eos]))))))

/-- `/[-\*]\s*(.+?)(?:\n|$)/g` -/
def critP3 : RE :=
  .seq (alts [lch '-', lch '*'])
    (.seq (.starG (.cpred isJsWs))
      (.seq (.group 1 (plusL dotNL))
        (alts [lch '\n', .eos])))

/-- The `criteriaPatterns` array of `extractAcceptanceCriteria`. -/
def criteriaPatterns : List RE := [critP1, critP2, critP3]

/-- `extractAcceptanceCriteria`: for each pattern in order, every match whose
trimmed group-1 capture exceeds 5 characters contributes that trimmed
capture; no fallback. -/
def extractAcceptanceCriteria (issueData : IssueData) : List String :=
  let s := issueData.description.data
  (criteriaPatterns.map (fun p =>
    (execAll p s).filterMap (fun m =>
      let criterion := jsTrim (capStr s m 1)
      if criterion.length > 5 then some criterion else none))).flatten

/-! ## Testing suggestions (`generateTestingSuggestions`) -/

/-- One entry of the `testingSuggestions` keyword table. -/
structure SuggestionGroup where
  keywords : List String
  tests : List String

/-- The fixed keyword-group table of `generateTestingSuggestions`. -/
def testingSuggestionGroups : List SuggestionGroup :=
  [ { keywords := ["login", "auth", "password", "usuario"],
      tests := ["Verificar login con credenciales válidas",
                "Verificar error con credenciales inválidas",
                "Verificar logout funciona correctamente",
                "Probar casos de seguridad (inyección, XSS)"] },
    { keywords := ["form", "formulario", "input", "campo"],
      tests := ["Validar todos los campos obligatorios",
                "Probar validaciones de formato",
                "Verificar mensajes de error apropiados",
                "Probar envío con datos válidos e inválidos"] },
    { keywords := ["api", "endpoint", "service"],
      tests := ["Probar respuestas con datos válidos",
                "Verificar manejo de errores HTTP",
                "Validar estructura de respuestas JSON",
                "Probar autenticación y autorización"] },
    { keywords := ["ui", "interfaz", "button", "botón"],
      tests := ["Verificar diseño responsive",
                "Probar accesibilidad (WCAG)",
                "Validar navegación entre pantallas",
                "Verificar estados de loading y error"] },
    { keywords := ["database", "datos", "guardar", "save"],
      tests := ["Verificar persistencia de datos",
                "Probar integridad referencial",
                "Validar rollback en errores",
                "Probar concurrencia de acceso"] } ]

/-- The four suggestions pushed unconditionally at the end of
`generateTestingSuggestions`. -/
def universalSuggestions : List String :=
  ["Verificar que el cambio no rompe funcionalidad existente",
   "Probar en diferentes navegadores/dispositivos",
   "Validar performance bajo carga normal",
   "Revisar logs de errores durante las pruebas"]

/-- The `suggestions` array right before deduplication: every group one of
whose keywords occurs in `fullText` contributes its tests, then the four
universal suggestions. -/
def suggestionsRaw (fullText : String) : List String :=
  (testingSuggestionGroups.flatMap (fun g =>
    if g.keywords.any (fun keyword => strIncludes fullText keyword) then g.tests
    else [])) ++ universalSuggestions

/-- `generateTestingSuggestions` (its `issueData` parameter is unused by the
source's body, which only consults `fullText`). -/
def generateTestingSuggestions (_issueData : IssueData) (fullText : String) :
    List String :=
  dedupFirst (suggestionsRaw fullText)

/-! ## Risk areas (`identifyRiskAreas`) -/

/-- One entry of the `riskIndicators` table. -/
structure RiskRule where
  pattern : RE
  risk : String

/-- The fixed `riskIndicators` table. -/
def riskIndicators : List RiskRule :=
  [ { pattern := alts [lit "security", lit "seguridad", lit "auth", lit "password"],
      risk := "Seguridad - requiere testing exhaustivo" },
    { pattern := alts [lit "payment", lit "pago", lit "billing", lit "facturación"],
      risk := "Pagos - crítico para el negocio" },
    { pattern := alts [lit "data", lit "datos", lit "database"],
      risk := "Integridad de datos - riesgo de pérdida" },
    { pattern := alts [lit "migration", lit "migración"],
      risk := "Migración - riesgo de downtime" },
    { pattern := alts [lit "integration", lit "integración",
                       .seq (lit "third") (.seq dotNL (lit "party"))],
      risk := "Integraciones externas - dependencias" },
    { pattern := alts [lit "performance", lit "rendimiento"],
      risk := "Performance - impacto en UX" } ]

/-- The `criticalLabels` array. -/
def criticalLabels : List String :=
  ["critical", "crítico", "high-priority", "security", "bug"]

/-- The risk message appended when some label is critical. -/
def highPriorityRisk : String :=
  "Alta prioridad - requiere testing completo antes de release"

/-- `identifyRiskAreas`: each matching risk indicator appends its message,
then a critical label appends the high-priority message. -/
def identifyRiskAreas (fullText : String) (labels : List String) : List String :=
  let risks := riskIndicators.filterMap (fun ri =>
    if reTest ri.pattern fullText then some ri.risk else none)
  risks ++
    (if labels.any (fun label => criticalLabels.contains (jsLower label)) then
      [highPriorityRisk]
    else [])

/-! ## Test types (`determineTestTypes`) -/

/-- One entry of the `typeMapping` table. -/
structure TypeRule where
  pattern : RE
  type : String

/-- The fixed `typeMapping` table. -/
def typeMapping : List TypeRule :=
  [ { pattern := alts [lit "unit", lit "unitario"], type := "Testing Unitario" },
    { pattern := alts [lit "integration", lit "integración"],
      type := "Testing de Integración" },
    { pattern := alts [lit "ui", lit "interfaz", lit "frontend"],
      type := "Testing de UI/UX" },
    { pattern := alts [lit "api", lit "service", lit "backend"],
      type := "Testing de API" },
    { pattern := alts [lit "performance", lit "rendimiento"],
      type := "Testing de Performance" },
    { pattern := alts [lit "security", lit "seguridad"],
      type := "Testing de Seguridad" },
    { pattern := alts [lit "mobile", lit "móvil"], type := "Testing Mobile" },
    { pattern := alts [lit "accessibility", lit "accesibilidad"],
      type := "Testing de Accesibilidad" } ]

/-- The two types pushed unconditionally. -/
def baselineTestTypes : List String := ["Testing Funcional", "Testing de Regresión"]

/-- The `testTypes` array right before deduplication. -/
def testTypesRaw (fullText : String) : List String :=
  (typeMapping.filterMap (fun tm =>
    if reTest tm.pattern fullText then some tm.type else none)) ++
    baselineTestTypes

/-- `determineTestTypes` (its `labels` parameter is accepted but unused, as
in the source). -/
def determineTestTypes (fullText : String) (_labels : List String) :
    List String :=
  dedupFirst (testTypesRaw fullText)

/-! ## The analyzer (`analyzeIssueForQA`) -/

/-- The `fullText` built by `analyzeIssueForQA`: lower-cased title and
description joined by a space. -/
def fullTextOf (issueData : IssueData) : String :=
  jsLower issueData.title ++ " " ++ jsLower issueData.description

/-- `analyzeIssueForQA`. -/
def analyzeIssueForQA (issueData : IssueData) : QAAnalysis :=
  let fullText := fullTextOf issueData
  { requirements := extractRequirements issueData
    acceptanceCriteria := extractAcceptanceCriteria issueData
    testingSuggestions := generateTestingSuggestions issueData fullText
    riskAreas := identifyRiskAreas fullText issueData.labels
    testTypes := determineTestTypes fullText issueData.labels }

/-! ## Report formatter (`formatQAAnalysis`) -/

/-- The `author` object of a provider comment, as the formatter reads it. -/
structure CommentAuthor where
  name : String

/-- A provider comment, restricted to the fields the formatter reads. -/
structure Comment where
  author : CommentAuthor
  created_at : String
  body : String

/-- Numbered Markdown list: `l.map((x, index) => `${index + 1}. ${x}`).join('\n')`. -/
def numberLines (l : List String) : String :=
  joinSep "\n" (l.enum.map (fun pair => toString (pair.1 + 1) ++ ". " ++ pair.2))

/-- One rendered comment of the formatter's comments section. `fmtDate`
stands for the environment's `new Date(created_at).toLocaleDateString('es-ES')`,
which is locale- and timezone-dependent and therefore a parameter of the
model. -/
def renderComment (fmtDate : String → String) (comment : Comment) : String :=
  "**" ++ comment.author.name ++ "** (" ++ fmtDate comment.created_at ++ "):\n"
    ++ comment.body ++ "\n"

/-- The comments section of the report: present only for a non-empty list,
rendering the first three comments joined by horizontal rules, with a
trailing note when more than three exist. -/
def commentsBlock (comments : List Comment) (fmtDate : String → String) : String :=
  if comments.length > 0 then
    "## 💬 Comentarios Relevantes (" ++ toString comments.length ++ ")\n"
      ++ joinSep "\n---\n" ((comments.take 3).map (renderComment fmtDate))
      ++ (if comments.length > 3 then
            "\n*(Mostrando solo los 3 comentarios más recientes)*"
          else "")
  else ""

/-- Everything of the report template before the comments section. -/
def formatQABody (issueData : IssueData) (qaAnalysis : QAAnalysis) : String :=
  "# 📋 Análisis QA Completo\n\n## 📄 Información del Issue\n**Proyecto:** "
  ++ issueData.project_name
  ++ "\n**Issue:** #" ++ toString issueData.iid ++ " - " ++ issueData.title
  ++ "\n**Estado:** " ++ issueData.state
  ++ "\n**Autor:** " ++ issueData.author
  ++ "\n**Asignados:** "
  ++ (if issueData.assignees.length > 0 then joinSep ", " issueData.assignees
      else "Sin asignar")
  ++ "\n**Etiquetas:** "
  ++ (if issueData.labels.length > 0 then joinSep ", " issueData.labels
      else "Sin etiquetas")
  ++ "\n**URL:** " ++ issueData.web_url
  ++ "\n\n## 🎯 Requerimientos Identificados\n"
  ++ numberLines qaAnalysis.requirements
  ++ "\n\n## ✅ Criterios de Aceptación\n"
  ++ (if qaAnalysis.acceptanceCriteria.length > 0 then
        numberLines qaAnalysis.acceptanceCriteria
      else
        "No se encontraron criterios de aceptación explícitos. Revisar descripción del issue.")
  ++ "\n\n## 🧪 Sugerencias de Testing\n"
  ++ numberLines qaAnalysis.testingSuggestions
  ++ "\n\n## ⚠️ Áreas de Riesgo Identificadas\n"
  ++ (if qaAnalysis.riskAreas.length > 0 then numberLines qaAnalysis.riskAreas
      else "No se identificaron áreas de riesgo específicas.")
  ++ "\n\n## 🔬 Tipos de Testing Recomendados\n"
  ++ numberLines qaAnalysis.testTypes
  ++ "\n\n## 📝 Descripción Original del Issue\n"
  ++ (if issueData.description = "" then "Sin descripción proporcionada"
      else issueData.description)

/-- The fixed attribution footer. -/
def qaFooter : String :=
  "\n\n---\n*Análisis generado automáticamente por GitLab QA MCP Server*"

/-- `formatQAAnalysis`. -/
def formatQAAnalysis (issueData : IssueData) (qaAnalysis : QAAnalysis)
    (comments : List Comment) (fmtDate : String → String) : String :=
  formatQABody issueData qaAnalysis ++ "\n\n"
    ++ commentsBlock comments fmtDate ++ qaFooter

/-! ## MCP errors (@modelcontextprotocol/sdk) -/

/-- The protocol error codes the repository uses. -/
inductive ErrorCode where
  | InvalidParams
  | InternalError
  | MethodNotFound
deriving DecidableEq

/-- The JSON-RPC numeric value of each error code. -/
def ErrorCode.num : ErrorCode → Int
  | .InvalidParams => -32602
  | .InternalError => -32603
  | .MethodNotFound => -32601

/-- `McpError` from the MCP SDK: a code plus a human-readable message. -/
structure McpError where
  code : ErrorCode
  message : String
deriving DecidableEq

/-- The `message` property of the thrown JavaScript `McpError` object,
which the SDK prefixes with the numeric code. -/
def McpError.jsMessage (e : McpError) : String :=
  "MCP error " ++ toString e.code.num ++ ": " ++ e.message

/-! ## GitHub URL parsing (src/src/helpers/github.ts) -/

/-- `/^https?:\/\/github\.com\/([^\/]+)\/([^\/]+)\/issues\/(\d+)/` -/
def ghIssueRe : RE :=
  .seq .bos
    (.seq (lit "http")
      (.seq (opt (lch 's'))
        (.seq (lit "://github.com/")
          (.seq (.group 1 (plusG notSlash))
            (.seq (lch '/')
              (.seq (.group 2 (plusG notSlash))
                (.seq (lit "/issues/")
                  (.group 3 (plusG digitC)))))))))

/-- Does the input match the expected GitHub issue-URL shape, i.e. does the
source's URL regex match it? -/
def matchesGitHubIssueShape (url : String) : Bool :=
  (searchFrom ghIssueRe url.data 0).isSome

/-- The result record of `parseGitHubIssueUrl`. -/
structure GHIssueRef where
  owner : String
  repo : String
  issueNumber : Nat
deriving DecidableEq

/-- `parseGitHubIssueUrl`: throws an invalid-params `McpError` when the URL
regex does not match. -/
def parseGitHubIssueUrl (url : String) : Except McpError GHIssueRef :=
  match searchFrom ghIssueRe url.data 0 with
  | none =>
    .error { code := .InvalidParams,
             message := "URL de issue de GitHub inválido. Formato esperado: https://github.com/owner/repo/issues/123" }
  | some m =>
    .ok { owner := capStr url.data m 1
          repo := capStr url.data m 2
          issueNumber := parseIntDec (capStr url.data m 3) }

/-! ## GitLab URL parsing (helpers/gitlab.ts, src/unnamed/part_000) -/

/-- The GitLab issue-URL regex of the source: `^https?`, then `://`, a host
`([^/]+)`, a slash, the project path `(.+)`, a slash, a literal dash, a
slash, the literal `issues`, a slash, and the issue number `(\d+)`. -/
def glIssueRe : RE :=
  .seq .bos
    (.seq (lit "http")
      (.seq (opt (lch 's'))
        (.seq (lit "://")
          (.seq (.group 1 (plusG notSlash))
            (.seq (lch '/')
              (.seq (.group 2 (plusG dotNL))
                (.seq (lit "/-/issues/")
                  (.group 3 (plusG digitC)))))))))

/-- Hostname of `new URL(u)` for the http(s) base URLs the repository
configures: the authority after the scheme, with userinfo and port stripped
and letters lower-cased (the WHATWG hostname of such URLs). -/
def urlHostname (u : String) : String :=
  let afterScheme := dropScheme u.data
  let authority := afterScheme.takeWhile
    (fun c => !(c == '/' || c == '?' || c == '#'))
  let host := authority.foldl
    (fun acc c => if c == '@' then [] else acc ++ [c]) []
  String.mk ((host.takeWhile (fun c => !(c == ':'))).map Char.toLower)
where
  /-- Drop everything up to and including the first `://`. -/
  dropScheme : List Char → List Char
    | ':' :: '/' :: '/' :: rest => rest
    | _ :: rest => dropScheme rest
    | [] => []

/-- The result record of `parseGitLabUrl`. -/
structure GLIssueRef where
  gitlabUrl : String
  projectId : String
  issueIid : Nat
deriving DecidableEq

/-- `parseGitLabUrl`: on a match, the effective base URL switches to the
linked host when it differs from the configured base URL's host. -/
def parseGitLabUrl (baseUrl url : String) : Except McpError GLIssueRef :=
  match searchFrom glIssueRe url.data 0 with
  | none =>
    .error { code := .InvalidParams,
             message := "URL de issue de GitLab inválido. Formato esperado: https://gitlab.com/namespace/project/-/issues/123" }
  | some m =>
    let domain := capStr url.data m 1
    let projectPath := capStr url.data m 2
    let issueIid := capStr url.data m 3
    let currentHost := urlHostname baseUrl
    let gitlabUrl := if domain ≠ currentHost then "https://" ++ domain else baseUrl
    .ok { gitlabUrl := gitlabUrl
          projectId := projectPath
          issueIid := parseIntDec issueIid }

/-! ## MongoDB tool handler (src/unnamed/part_002, `mongoHandler`) -/

/-- The externally observable driver calls the handler can make. -/
inductive DbAction where
  | connect
  | findOne
  | findMany
  | insertOne
  | updateMany
  | deleteMany
  | close
deriving DecidableEq

/-- The arguments of the `mongo_query` tool (the optional `filter`, `update`,
`document` and `options` payloads are forwarded opaquely to the driver and
do not influence control flow). -/
structure MongoArgs where
  uri : String
  database : String
  collection : String
  operation : String
  filter : Option String := none
  update : Option String := none
  document : Option String := none
  options : Option String := none

/-- The `try` block of `mongoHandler`, assuming the driver calls succeed:
connect, dispatch on the lower-cased operation, close, and stringify the
result. `run` gives the JSON text the driver returns for each call. The
unsupported-operation `default` branch throws an invalid-params `McpError`
after the connection was already opened, so no `close` happens there.
Returns the outcome together with the list of driver calls performed. -/
def mongoTry (run : DbAction → String) (args : MongoArgs) :
    Except McpError String × List DbAction :=
  let op := jsLower args.operation
  if op = "find_one" then (.ok (run .findOne), [.connect, .findOne, .close])
  else if op = "find_many" then (.ok (run .findMany), [.connect, .findMany, .close])
  else if op = "insert_one" then (.ok (run .insertOne), [.connect, .insertOne, .close])
  else if op = "update_many" then (.ok (run .updateMany), [.connect, .updateMany, .close])
  else if op = "delete_many" then (.ok (run .deleteMany), [.connect, .deleteMany, .close])
  else (.error { code := .InvalidParams, message := "Operación no soportada" },
        [.connect])

/-- `mongoHandler`: the `catch` block rethrows every error — including the
handler's own invalid-params error — as a new internal-error `McpError`
carrying the caught error's `message` property. -/
def mongoHandler (run : DbAction → String) (args : MongoArgs) :
    Except McpError String × List DbAction :=
  match mongoTry run args with
  | (.ok s, acts) => (.ok s, acts)
  | (.error e, acts) =>
    (.error { code := .InternalError, message := e.jsMessage }, acts)

/-! ## Claim theorems -/

/-- C3: whenever the three requirement patterns yield zero matches surviving
the >10-character trimmed-length filter, `extractRequirements` returns
exactly the one-element list `["Implementar: " ++ title]`; whenever the
surviving match list is non-empty, the result is exactly that list — no
synthetic entry is added. -/
theorem extractRequirements_fallback (issueData : IssueData) :
    (reqMatches issueData.description = [] →
      extractRequirements issueData = ["Implementar: " ++ issueData.title])
    ∧ (reqMatches issueData.description ≠ [] →
      extractRequirements issueData = reqMatches issueData.description) := by
  constructor
  · intro h
    simp [extractRequirements, h]
  · intro h
    obtain ⟨a, l, hm⟩ : ∃ a l, reqMatches issueData.description = a :: l := by
      cases hm : reqMatches issueData.description with
      | nil => exact absurd hm h
      | cons a l => exact ⟨a, l, rfl⟩
    simp [extractRequirements, hm]

/-- Witness for C3 at a concrete issue with an empty description. -/
theorem extractRequirements_fallback_witness :
    reqMatches "" = [] ∧
    extractRequirements
      { title := "x", description := "", labels := [], assignees := [],
        author := "", state := "", created_at := "", updated_at := "",
        web_url := "", project_name := "", iid := 1 }
      = ["Implementar: x"] :=
  ⟨rfl, (extractRequirements_fallback _).1 rfl⟩

/-- C4: `generateTestingSuggestions` always contains each of the 4 universal
suggestions, contains no duplicate strings, and is a sublist of the raw
pushed list (first-occurrence order preserved). -/
theorem generateTestingSuggestions_universal_nodup (issueData : IssueData)
    (fullText : String) :
    "Verificar que el cambio no rompe funcionalidad existente"
        ∈ generateTestingSuggestions issueData fullText
    ∧ "Probar en diferentes navegadores/dispositivos"
        ∈ generateTestingSuggestions issueData fullText
    ∧ "Validar performance bajo carga normal"
        ∈ generateTestingSuggestions issueData fullText
    ∧ "Revisar logs de errores durante las pruebas"
        ∈ generateTestingSuggestions issueData fullText
    ∧ (generateTestingSuggestions issueData fullText).Nodup
    ∧ (generateTestingSuggestions issueData fullText).Sublist
        (suggestionsRaw fullText) := by
  have hm : ∀ u : String, u ∈ universalSuggestions →
      u ∈ generateTestingSuggestions issueData fullText := by
    intro u hu
    show u ∈ dedupFirst (suggestionsRaw fullText)
    rw [mem_dedupFirst]
    exact List.mem_append_right _ hu
  refine ⟨hm _ ?_, hm _ ?_, hm _ ?_, hm _ ?_,
    nodup_dedupFirst _, sublist_dedupFirst _⟩ <;> simp [universalSuggestions]

/-- C5: `determineTestTypes` always contains both baseline entries
"Testing Funcional" and "Testing de Regresión" and has no duplicates. -/
theorem determineTestTypes_baseline_nodup (fullText : String)
    (labels : List String) :
    "Testing Funcional" ∈ determineTestTypes fullText labels
    ∧ "Testing de Regresión" ∈ determineTestTypes fullText labels
    ∧ (determineTestTypes fullText labels).Nodup := by
  have hm : ∀ u : String, u ∈ baselineTestTypes →
      u ∈ determineTestTypes fullText labels := by
    intro u hu
    show u ∈ dedupFirst (testTypesRaw fullText)
    rw [mem_dedupFirst]
    exact List.mem_append_right _ hu
  refine ⟨hm _ ?_, hm _ ?_, nodup_dedupFirst _⟩ <;> simp [baselineTestTypes]

/-- C6: the output of `identifyRiskAreas` contains the high-priority risk
message exactly when some label, lower-cased, lies in the fixed critical
label set. -/
theorem identifyRiskAreas_high_priority_iff (fullText : String)
    (labels : List String) :
    highPriorityRisk ∈ identifyRiskAreas fullText labels
      ↔ ∃ label, label ∈ labels ∧ jsLower label ∈ criticalLabels := by
  unfold identifyRiskAreas
  constructor
  · intro h
    rcases List.mem_append.mp h with h | h
    · exfalso
      obtain ⟨ri, hri, hite⟩ := List.mem_filterMap.mp h
      have heq : ri.risk = highPriorityRisk := by
        by_cases hre : reTest ri.pattern fullText = true
        · rw [if_pos hre] at hite
          exact Option.some.inj hite
        · rw [if_neg hre] at hite
          exact absurd hite (by simp)
      simp only [riskIndicators, List.mem_cons, List.mem_singleton,
        List.not_mem_nil, or_false] at hri
      rcases hri with rfl | rfl | rfl | rfl | rfl | rfl <;>
        exact absurd heq (by decide)
    · by_cases hc :
        (labels.any fun label => criticalLabels.contains (jsLower label)) = true
      · obtain ⟨label, hl, hcl⟩ := List.any_eq_true.mp hc
        exact ⟨label, hl, by simpa using hcl⟩
      · rw [if_neg hc] at h
        cases h
  · rintro ⟨label, hl, hcl⟩
    apply List.mem_append_right
    rw [if_pos (List.any_eq_true.mpr ⟨label, hl, by simpa using hcl⟩)]
    exact List.mem_singleton.mpr rfl

/-- C7: the formatter renders only the first 3 comments plus the trailing
note when given 5 comments, renders both comments and no note when given 2,
and omits the comments section entirely when given none. -/
theorem formatQAAnalysis_comments_rendering (d : IssueData) (qa : QAAnalysis)
    (c1 c2 c3 c4 c5 : Comment) (fd : String → String) :
    formatQAAnalysis d qa [c1, c2, c3, c4, c5] fd
      = formatQABody d qa ++ "\n\n"
        ++ ("## 💬 Comentarios Relevantes (5)\n"
            ++ (renderComment fd c1 ++ "\n---\n"
                ++ (renderComment fd c2 ++ "\n---\n" ++ renderComment fd c3))
            ++ "\n*(Mostrando solo los 3 comentarios más recientes)*")
        ++ qaFooter
    ∧ formatQAAnalysis d qa [c1, c2] fd
      = formatQABody d qa ++ "\n\n"
        ++ ("## 💬 Comentarios Relevantes (2)\n"
            ++ (renderComment fd c1 ++ "\n---\n" ++ renderComment fd c2)
            ++ "")
        ++ qaFooter
    ∧ formatQAAnalysis d qa [] fd
      = formatQABody d qa ++ "\n\n" ++ "" ++ qaFooter := by
  have h5 : commentsBlock [c1, c2, c3, c4, c5] fd
      = "## 💬 Comentarios Relevantes (5)\n"
        ++ (renderComment fd c1 ++ "\n---\n"
            ++ (renderComment fd c2 ++ "\n---\n" ++ renderComment fd c3))
        ++ "\n*(Mostrando solo los 3 comentarios más recientes)*" := by
    simp only [commentsBlock, List.length_cons, List.length_nil,
      List.take, List.map, joinSep]
    norm_num
    rw [show toString (5 : Nat) = "5" from rfl,
      show "## 💬 Comentarios Relevantes (" ++ "5" ++ ")\n"
        = "## 💬 Comentarios Relevantes (5)\n" from rfl]
  have h2 : commentsBlock [c1, c2] fd
      = "## 💬 Comentarios Relevantes (2)\n"
        ++ (renderComment fd c1 ++ "\n---\n" ++ renderComment fd c2)
        ++ "" := by
    simp only [commentsBlock, List.length_cons, List.length_nil,
      List.take, List.map, joinSep]
    norm_num
    rw [show toString (2 : Nat) = "2" from rfl,
      show "## 💬 Comentarios Relevantes (" ++ "2" ++ ")\n"
        = "## 💬 Comentarios Relevantes (2)\n" from rfl]
  have h0 : commentsBlock [] fd = "" := rfl
  refine ⟨?_, ?_, ?_⟩
  · show formatQABody d qa ++ "\n\n" ++ commentsBlock [c1, c2, c3, c4, c5] fd
      ++ qaFooter = _
    rw [h5]
  · show formatQABody d qa ++ "\n\n" ++ commentsBlock [c1, c2] fd
      ++ qaFooter = _
    rw [h2]
  · show formatQABody d qa ++ "\n\n" ++ commentsBlock [] fd ++ qaFooter = _
    rw [h0]

/-- C8: with the configured base URL at its default `https://gitlab.com`, a
link to a different GitLab host parses with the effective base URL switched
to the linked host. -/
theorem parseGitLabUrl_cross_host :
    parseGitLabUrl "https://gitlab.com"
        "https://gitlab.example.org/ns/proj/-/issues/42"
      = .ok { gitlabUrl := "https://gitlab.example.org",
              projectId := "ns/proj", issueIid := 42 } := rfl

/-- C9: the concrete GitHub issue URL parses to its owner/repo/number, and
every input the URL regex rejects produces the invalid-params error. -/
theorem parseGitHubIssueUrl_spec :
    parseGitHubIssueUrl "https://github.com/o/r/issues/7"
      = .ok { owner := "o", repo := "r", issueNumber := 7 }
    ∧ ∀ url : String, matchesGitHubIssueShape url = false →
        parseGitHubIssueUrl url
          = .error { code := .InvalidParams,
                     message := "URL de issue de GitHub inválido. Formato esperado: https://github.com/owner/repo/issues/123" } := by
  refine ⟨rfl, fun url h => ?_⟩
  unfold matchesGitHubIssueShape at h
  unfold parseGitHubIssueUrl
  cases hm : searchFrom ghIssueRe url.data 0 with
  | none => rfl
  | some m => rw [hm] at h; simp at h

/-- Witness for C9 at a concrete non-matching input. -/
theorem parseGitHubIssueUrl_spec_witness :
    matchesGitHubIssueShape "https://github.com/o/r/pull/7" = false ∧
    parseGitHubIssueUrl "https://github.com/o/r/pull/7"
      = .error { code := .InvalidParams,
                 message := "URL de issue de GitHub inválido. Formato esperado: https://github.com/owner/repo/issues/123" } :=
  ⟨rfl, parseGitHubIssueUrl_spec.2 "https://github.com/o/r/pull/7" rfl⟩

/-- C10: the third acceptance-criteria scan matches a hyphen anywhere in the
line, not only as a markdown bullet prefix: a description with no
line-prefix bullet but a mid-line hyphen yields the text after that
hyphen. -/
theorem extractAcceptanceCriteria_midline_hyphen :
    extractAcceptanceCriteria
      { title := "Flow", description := "the flow - covers the main case",
        labels := [], assignees := [], author := "", state := "",
        created_at := "", updated_at := "", web_url := "",
        project_name := "", iid := 1 }
      = ["covers the main case"] := rfl

/-- C2 (code bug): calling the mongo handler with an unsupported operation
produces an internal-error `McpError` (the handler's own invalid-params
error is swallowed and rewrapped by its catch block), after a database
connection was already opened. -/
theorem mongoHandler_unsupported_op_internal (run : DbAction → String) :
    (mongoHandler run
        { uri := "mongodb://localhost:27017", database := "qa",
          collection := "cases", operation := "drop_collection" }).1
      = .error { code := .InternalError,
                 message := "MCP error -32602: Operación no soportada" }
    ∧ DbAction.connect ∈ (mongoHandler run
        { uri := "mongodb://localhost:27017", database := "qa",
          collection := "cases", operation := "drop_collection" }).2 :=
  ⟨rfl, List.Mem.head _⟩

/-- C1 (counterexample): with an empty description but the title "login",
the analyzer's testing suggestions are not just the 4 universal ones — the
title feeds the keyword matchers through `fullText`, so the claim's
"regardless of the title's content" fails. -/
theorem analyze_empty_description_title_counterexample :
    (analyzeIssueForQA
      { title := "login", description := "", labels := [], assignees := [],
        author := "", state := "", created_at := "", updated_at := "",
        web_url := "", project_name := "", iid := 1 }).testingSuggestions
      ≠ universalSuggestions := by decide

/-- C1 (amended): for every issue with an empty description whose lower-cased
title triggers no suggestion keyword group, no risk pattern, no test-type
pattern, and whose labels contain no critical label, `analyzeIssueForQA`
returns exactly the fallbacks: the synthetic requirement, no criteria, the
4 universal suggestions, no risks, and the 2 baseline test types. -/
theorem analyze_empty_description_fallbacks (d : IssueData)
    (hdesc : d.description = "")
    (hsug : ∀ g ∈ testingSuggestionGroups,
      (g.keywords.any fun keyword => strIncludes (fullTextOf d) keyword) = false)
    (hrisk : ∀ ri ∈ riskIndicators, reTest ri.pattern (fullTextOf d) = false)
    (htype : ∀ tm ∈ typeMapping, reTest tm.pattern (fullTextOf d) = false)
    (hlab : ∀ label ∈ d.labels, jsLower label ∉ criticalLabels) :
    analyzeIssueForQA d =
      { requirements := ["Implementar: " ++ d.title]
        acceptanceCriteria := []
        testingSuggestions := universalSuggestions
        riskAreas := []
        testTypes := baselineTestTypes } := by
  have hreq : extractRequirements d = ["Implementar: " ++ d.title] := by
    unfold extractRequirements
    rw [hdesc]
    rfl
  have hcrit : extractAcceptanceCriteria d = [] := by
    unfold extractAcceptanceCriteria
    rw [hdesc]
    rfl
  have hsug2 : generateTestingSuggestions d (fullTextOf d) = universalSuggestions := by
    have hfm : testingSuggestionGroups.flatMap (fun g =>
        if g.keywords.any (fun keyword => strIncludes (fullTextOf d) keyword)
        then g.tests else []) = [] :=
      flatMap_eq_nil_of_forall _ _ (fun g hg => by rw [hsug g hg]; rfl)
    unfold generateTestingSuggestions suggestionsRaw
    rw [hfm]
    rfl
  have hrisk2 : identifyRiskAreas (fullTextOf d) d.labels = [] := by
    unfold identifyRiskAreas
    have h1 : riskIndicators.filterMap (fun ri =>
        if reTest ri.pattern (fullTextOf d) then some ri.risk else none) = [] := by
      rw [List.filterMap_eq_nil_iff]
      intro ri hri
      rw [hrisk ri hri]
      rfl
    have h2 : (d.labels.any fun label =>
        criticalLabels.contains (jsLower label)) = false := by
      rw [List.any_eq_false]
      intro label hl
      intro hc
      exact hlab label hl (by simpa using hc)
    rw [h1, h2]
    rfl
  have htype2 : determineTestTypes (fullTextOf d) d.labels = baselineTestTypes := by
    unfold determineTestTypes testTypesRaw
    have h1 : typeMapping.filterMap (fun tm =>
        if reTest tm.pattern (fullTextOf d) then some tm.type else none) = [] := by
      rw [List.filterMap_eq_nil_iff]
      intro tm htm
      rw [htype tm htm]
      rfl
    rw [h1]
    rfl
  show
    { requirements := extractRequirements d
      acceptanceCriteria := extractAcceptanceCriteria d
      testingSuggestions := generateTestingSuggestions d (fullTextOf d)
      riskAreas := identifyRiskAreas (fullTextOf d) d.labels
      testTypes := determineTestTypes (fullTextOf d) d.labels } =
    ({ requirements := ["Implementar: " ++ d.title]
       acceptanceCriteria := []
       testingSuggestions := universalSuggestions
       riskAreas := []
       testTypes := baselineTestTypes } : QAAnalysis)
  rw [hreq, hcrit, hsug2, hrisk2, htype2]

/-- Witness for the amended C1 at a concrete issue whose title triggers no
matcher. -/
theorem analyze_empty_description_fallbacks_witness :
    analyzeIssueForQA
      { title := "tarea", description := "", labels := [], assignees := [],
        author := "a", state := "opened", created_at := "", updated_at := "",
        web_url := "", project_name := "p", iid := 1 } =
      { requirements := ["Implementar: tarea"]
        acceptanceCriteria := []
        testingSuggestions := universalSuggestions
        riskAreas := []
        testTypes := baselineTestTypes } :=
  analyze_empty_description_fallbacks _ rfl (by decide) (by decide)
    (by decide) (by decide)

end QAMCP
